import Mathlib

/-
Verification development for the setup-buildx-action entry point
(src/src/main.ts).  The source file defines two async functions, run
(the setup phase) and cleanup (the post phase), dispatched on a
process-state flag.  We embed both shallowly: every external call
(docker invocations, buildx helper calls, structured outputs, saved
state, warnings, failure reports) is recorded as an element of an
effect trace, and each fallible external call takes its result from an
environment record, so that a run of the embedded program is a pure
function from inputs and environment to a trace plus an optional
failure message.  Pure logging (core.startGroup, core.info,
core.endGroup) is not modelled.
-/

namespace SetupBuildx

/-- Inputs record, from context.getInputs (src/src/main.ts line 17).
In the JavaScript source the string fields are tested for truthiness,
which for strings means non-emptiness, so optional strings are
modelled as plain strings with the empty string for absence. -/
structure Inputs where
  version : String
  driver : String
  driverOpts : List String
  buildkitdFlags : String
  endpoint : String
  config : String
  use : Bool
  install : Bool
  builderName : String
  deriving Repr, DecidableEq

/-- Modelled from the spec: the semantic version of the installed
buildx binary as resolved by buildx.getVersion (src/buildx.ts is not
under src/). -/
structure SemVer where
  major : Nat
  minor : Nat
  patch : Nat
  deriving Repr, DecidableEq

/-- Modelled from the spec: buildx.satisfies with a minimum-version
range such as the strings ">=0.3.0" and ">=0.4.0" (src/buildx.ts is
not under src/); per spec section 8 it holds exactly when the resolved
version is not less than the bound, lexicographically on
major.minor.patch. -/
def semverSatisfiesGe (v : SemVer) (m : SemVer) : Bool :=
  (v.major > m.major) ||
    (v.major == m.major &&
      (v.minor > m.minor || (v.minor == m.minor && v.patch >= m.patch)))

/-- Builder record returned by buildx.inspect (spec section 3); the
node_* fields surface the first inspected node. -/
structure Builder where
  name : String
  driver : String
  node_name : String
  node_endpoint : String
  node_status : String
  node_flags : String
  node_platforms : String
  deriving Repr, DecidableEq

/-- Character-list prefix test: the first list starts with the
second. -/
def charsHasPre : List Char → List Char → Bool
  | _, [] => true
  | [], _ :: _ => false
  | c :: cs, d :: ds => c == d && charsHasPre cs ds

/-- Character-list substring test: the pattern occurs contiguously
somewhere in the list. -/
def charsContains (pat : List Char) : List Char → Bool
  | [] => pat.isEmpty
  | c :: rest => charsHasPre (c :: rest) pat || charsContains pat rest

/-- JavaScript String.prototype.includes: the search string occurs as
a contiguous substring (an empty search string always occurs). -/
def strIncludes (s sub : String) : Bool :=
  charsContains sub.data s.data

/-- Result of exec.getExecOutput as used in cleanup. -/
structure ExecOutput where
  stdout : String
  stderr : String
  exitCode : Int
  deriving Repr, DecidableEq

/-- Observable effects of the program: external commands, structured
outputs, saved process state, warnings and the failure report. -/
inductive Effect where
  | exec (cmd : String) (args : List String)
  | execIgnore (cmd : String) (args : List String)
  | buildxBuild (ref : String) (configHome : String)
  | buildxInstall (version : String)
  | getVersion
  | inspect (name : String)
  | getBuildKitVersion (container : String)
  | setOutput (key value : String)
  | saveState (key value : String)
  | warning (msg : String)
  | setFailed (msg : String)
  deriving Repr, DecidableEq

/-- Effects that write an output or persist state (core.setOutput and
the stateHelper setters). -/
def Effect.isWrite : Effect → Bool
  | .setOutput _ _ => true
  | .saveState _ _ => true
  | _ => false

/-- Environment for one setup run: the configuration probed from the
process environment and the result of every fallible external call,
in source order.  versionIsUrl stands for util.isValidUrl applied to
the version input and buildxAvailable for buildx.isAvailable; both are
modelled from the spec as oracles because src/util.ts and
src/buildx.ts are not under src/. -/
structure Env where
  dockerConfigHome : String
  versionIsUrl : Bool
  buildxAvailable : Bool
  dockerVersionRes : Except String Unit
  dockerInfoRes : Except String Unit
  buildRes : Except String Unit
  installRes : Except String Unit
  getVersionRes : Except String SemVer
  createRes : Except String Unit
  bootRes : Except String Unit
  installDefaultRes : Except String Unit
  inspectRes : Except String Builder
  buildKitVersionRes : Except String String
  isDebug : Bool

/-- Sequencing of two traced fallible computations: if the first
fails, the second never runs and contributes no effects (the thrown
error aborts the remaining statements of the try block). -/
def pSeq {α β : Type} (a : List Effect × Except String α)
    (f : α → List Effect × Except String β) : List Effect × Except String β :=
  match a.2 with
  | .error e => (a.1, .error e)
  | .ok v => (a.1 ++ (f v).1, (f v).2)

/-- Docker info phase (src/src/main.ts lines 12-15): exec docker
version then exec docker info, each fatal on failure. -/
def dockerInfoPhase (env : Env) : List Effect × Except String Unit :=
  match env.dockerVersionRes with
  | .error e => ([Effect.exec "docker" ["version"]], .error e)
  | .ok _ =>
    ([Effect.exec "docker" ["version"], Effect.exec "docker" ["info"]],
     env.dockerInfoRes)

/-- Tool provisioning phase (src/src/main.ts lines 20-28): build from
source when the version input is a valid URL; otherwise download and
install when buildx is unavailable or an explicit version was given,
defaulting the version to the string "latest"; otherwise do nothing. -/
def provPhase (inputs : Inputs) (env : Env) : List Effect × Except String Unit :=
  if env.versionIsUrl then
    ([Effect.buildxBuild inputs.version env.dockerConfigHome], env.buildRes)
  else if !env.buildxAvailable || inputs.version != "" then
    ([Effect.buildxInstall (if inputs.version != "" then inputs.version else "latest")],
     env.installRes)
  else ([], Except.ok ())

/-- Version resolution phase (src/src/main.ts line 30). -/
def versionPhase (env : Env) : List Effect × Except String SemVer :=
  ([Effect.getVersion], env.getVersionRes)

/-- Builder name computation (src/src/main.ts line 31). -/
def builderNameOf (inputs : Inputs) : String :=
  if inputs.driver == "docker" then "default" else "builder-" ++ inputs.builderName

/-- Name reporting phase (src/src/main.ts lines 32-33): the name is
written to the structured output sink and persisted via
stateHelper.setBuilderName. -/
def namePhase (inputs : Inputs) : List Effect × Except String Unit :=
  ([Effect.setOutput "name" (builderNameOf inputs),
    Effect.saveState "builderName" (builderNameOf inputs)], Except.ok ())

/-- Argument list for the builder creation command (src/src/main.ts
lines 37-54), built by successive pushes exactly as in the source. -/
def createArgs (inputs : Inputs) (builderName : String) (v : SemVer) : List String :=
  let args := ["buildx", "create", "--name", builderName, "--driver", inputs.driver]
  let args :=
    if semverSatisfiesGe v ⟨0, 3, 0⟩ then
      let args := inputs.driverOpts.foldl (fun a o => a ++ ["--driver-opt", o]) args
      if inputs.buildkitdFlags != "" then
        args ++ ["--buildkitd-flags", inputs.buildkitdFlags]
      else args
    else args
  let args := if inputs.use then args ++ ["--use"] else args
  let args := if inputs.endpoint != "" then args ++ [inputs.endpoint] else args
  if inputs.config != "" then args ++ ["--config", inputs.config] else args

/-- Argument list for the boot (inspect with bootstrap) command
(src/src/main.ts lines 59-62). -/
def bootstrapArgs (builderName : String) (v : SemVer) : List String :=
  let args := ["buildx", "inspect", "--bootstrap"]
  if semverSatisfiesGe v ⟨0, 4, 0⟩ then args ++ ["--builder", builderName] else args

/-- Create-and-boot phase (src/src/main.ts lines 35-65): skipped
entirely for the docker driver; otherwise the creation command runs
and, if it succeeds, the boot command runs; each is fatal on
failure. -/
def createBootPhase (inputs : Inputs) (env : Env) (v : SemVer) :
    List Effect × Except String Unit :=
  if inputs.driver != "docker" then
    match env.createRes with
    | .error e =>
      ([Effect.exec "docker" (createArgs inputs (builderNameOf inputs) v)], .error e)
    | .ok _ =>
      ([Effect.exec "docker" (createArgs inputs (builderNameOf inputs) v),
        Effect.exec "docker" (bootstrapArgs (builderNameOf inputs) v)],
       env.bootRes)
  else ([], Except.ok ())

/-- Install-as-default phase (src/src/main.ts lines 67-71). -/
def installPhase (inputs : Inputs) (env : Env) : List Effect × Except String Unit :=
  if inputs.install then
    ([Effect.exec "docker" ["buildx", "install"]], env.installDefaultRes)
  else ([], Except.ok ())

/-- Inspect phase (src/src/main.ts line 74). -/
def inspectPhase (env : Env) (name : String) : List Effect × Except String Builder :=
  ([Effect.inspect name], env.inspectRes)

/-- Structured outputs written after inspection (src/src/main.ts
lines 76-80). -/
def outputsPhase (b : Builder) : List Effect × Except String Unit :=
  ([Effect.setOutput "driver" b.driver,
    Effect.setOutput "endpoint" b.node_endpoint,
    Effect.setOutput "status" b.node_status,
    Effect.setOutput "flags" b.node_flags,
    Effect.setOutput "platforms" b.node_platforms], Except.ok ())

/-- Container phase (src/src/main.ts lines 83-88): only for the
docker-container driver, persist the container name and query the
BuildKit version inside it (fatal on failure, being awaited inside
the try block). -/
def containerPhase (inputs : Inputs) (env : Env) (b : Builder) :
    List Effect × Except String Unit :=
  if inputs.driver == "docker-container" then
    ([Effect.saveState "containerName" ("buildx_buildkit_" ++ b.node_name),
      Effect.getBuildKitVersion ("buildx_buildkit_" ++ b.node_name)],
     match env.buildKitVersionRes with
     | .error e => .error e
     | .ok _ => .ok ())
  else ([], Except.ok ())

/-- Debug persistence phase (src/src/main.ts lines 89-91): the debug
flag is persisted as the string "true" when the runner debug mode is
on or the inspected node flags contain the substring "--debug". -/
def debugPhase (env : Env) (b : Builder) : List Effect × Except String Unit :=
  (if env.isDebug || strIncludes b.node_flags "--debug" then
    [Effect.saveState "isDebug" "true"]
  else [], Except.ok ())

/-- Body of the try block of run (src/src/main.ts lines 11-91). -/
def runSetup (inputs : Inputs) (env : Env) : List Effect × Except String Unit :=
  pSeq (dockerInfoPhase env) fun _ =>
  pSeq (provPhase inputs env) fun _ =>
  pSeq (versionPhase env) fun v =>
  pSeq (namePhase inputs) fun _ =>
  pSeq (createBootPhase inputs env v) fun _ =>
  pSeq (installPhase inputs env) fun _ =>
  pSeq (inspectPhase env (builderNameOf inputs)) fun builder =>
  pSeq (outputsPhase builder) fun _ =>
  pSeq (containerPhase inputs env builder) fun _ =>
  debugPhase env builder

/-- The run function with its catch handler (src/src/main.ts lines
92-94): on any error the remaining statements are skipped and
core.setFailed is called with the error message. -/
def runResult (inputs : Inputs) (env : Env) : List Effect × Option String :=
  match runSetup inputs env with
  | (t, .ok _) => (t, none)
  | (t, .error e) => (t ++ [Effect.setFailed e], some e)

/-- Modelled from the spec: the process state read back by
state-helper (src/state-helper.ts is not under src/); each field is
the last value saved under its key during setup, with the empty string
when absent, and IsDebug compares the saved string against the literal
"true". -/
structure ProcState where
  builderName : String
  containerName : String
  isDebug : Bool
  deriving Repr, DecidableEq

/-- Values saved under a key in a trace, in order. -/
def stateSaves (key : String) : List Effect → List String :=
  List.filterMap fun e =>
    match e with
    | .saveState k v => if k == key then some v else none
    | _ => none

/-- Last value saved under a key in a trace. -/
def lastState (tr : List Effect) (key : String) : Option String :=
  (stateSaves key tr).getLast?

/-- Modelled from the spec: loading the persisted process state from
the effects of the setup phase (src/state-helper.ts is not under
src/). -/
def stateOf (tr : List Effect) : ProcState :=
  { builderName := (lastState tr "builderName").getD ""
    containerName := (lastState tr "containerName").getD ""
    isDebug := (lastState tr "isDebug").getD "" == "true" }

/-- Environment for the cleanup phase: the results of the two
best-effort commands it can issue. -/
structure CleanupEnv where
  logsRes : ExecOutput
  rmRes : ExecOutput
  deriving Repr, DecidableEq

/-- Effects of cleanup (src/src/main.ts lines 97-125): when the debug
flag was persisted and a container name is present, fetch the
container logs with ignoreReturnCode and warn on a failing exit with
non-empty stderr; when a builder name is present, remove the builder
the same way.  Both commands ignore the return code, so cleanup never
throws. -/
def cleanupTrace (st : ProcState) (env : CleanupEnv) : List Effect :=
  (if st.isDebug && st.containerName.length > 0 then
    [Effect.execIgnore "docker" ["logs", st.containerName]] ++
      (if env.logsRes.stderr.length > 0 && env.logsRes.exitCode != 0 then
        [Effect.warning env.logsRes.stderr.trim]
      else [])
  else []) ++
  (if st.builderName.length > 0 then
    [Effect.execIgnore "docker" ["buildx", "rm", st.builderName]] ++
      (if env.rmRes.stderr.length > 0 && env.rmRes.exitCode != 0 then
        [Effect.warning env.rmRes.stderr.trim]
      else [])
  else [])

/-- Cleanup as a whole run: its trace together with its outcome, which
is always success since every command in cleanup runs with
ignoreReturnCode and the then-handlers never throw. -/
def cleanupResult (st : ProcState) (env : CleanupEnv) : List Effect × Option String :=
  (cleanupTrace st env, none)

/-- Membership in the trace of a sequenced computation comes from the
first component or, when the first component succeeded, from the
continuation. -/
theorem mem_pSeq {α β : Type} {a : List Effect × Except String α}
    {f : α → List Effect × Except String β} {x : Effect}
    (h : x ∈ (pSeq a f).1) :
    x ∈ a.1 ∨ ∃ v, a.2 = Except.ok v ∧ x ∈ (f v).1 := by
  unfold pSeq at h
  rcases ha : a.2 with e | v <;> rw [ha] at h <;> simp at h
  · exact Or.inl h
  · rcases h with h | h
    · exact Or.inl h
    · exact Or.inr ⟨v, rfl, h⟩

/-- A sequenced computation that succeeded decomposes as both parts
succeeding, with the traces concatenated. -/
theorem pSeq_ok_elim {α β : Type} {a : List Effect × Except String α}
    {f : α → List Effect × Except String β} {b : β}
    (h : (pSeq a f).2 = Except.ok b) :
    ∃ v, a.2 = Except.ok v ∧ (f v).2 = Except.ok b ∧
      (pSeq a f).1 = a.1 ++ (f v).1 := by
  unfold pSeq at h ⊢
  rcases ha : a.2 with e | v <;> rw [ha] at h <;> simp_all

/-- A sequenced computation that failed either failed in its first
part, whose trace it then equals, or failed in the continuation after
the first part succeeded. -/
theorem pSeq_error_elim {α β : Type} {a : List Effect × Except String α}
    {f : α → List Effect × Except String β} {e : String}
    (h : (pSeq a f).2 = Except.error e) :
    (a.2 = Except.error e ∧ (pSeq a f).1 = a.1) ∨
      ∃ v, a.2 = Except.ok v ∧ (f v).2 = Except.error e ∧
        (pSeq a f).1 = a.1 ++ (f v).1 := by
  unfold pSeq at h ⊢
  rcases ha : a.2 with e0 | v <;> rw [ha] at h <;> simp_all

/-- One flag and value pair per element of a list, in order. -/
def optPairs (flag : String) : List String → List String
  | [] => []
  | o :: rest => flag :: o :: optPairs flag rest

/-- Folding a push of a flag and value pair over a list appends one
pair per element, in order. -/
theorem foldl_push_pairs (flag : String) (l : List String) (init : List String) :
    l.foldl (fun a o => a ++ [flag, o]) init = init ++ optPairs flag l := by
  induction l generalizing init with
  | nil => simp [optPairs]
  | cons o rest ih =>
    simp only [List.foldl_cons, optPairs, ih]
    simp

/-- Structure of the creation argument list: the fixed head, then the
version-gated driver-opt pairs and buildkitd-flags pair, then the use
flag, then the bare endpoint, then the config pair. -/
theorem createArgs_eq (inputs : Inputs) (name : String) (v : SemVer) :
    createArgs inputs name v =
      ["buildx", "create", "--name", name, "--driver", inputs.driver] ++
        (if semverSatisfiesGe v ⟨0, 3, 0⟩ then
          optPairs "--driver-opt" inputs.driverOpts ++
            (if inputs.buildkitdFlags != "" then
              ["--buildkitd-flags", inputs.buildkitdFlags]
            else [])
        else []) ++
        (if inputs.use then ["--use"] else []) ++
        (if inputs.endpoint != "" then [inputs.endpoint] else []) ++
        (if inputs.config != "" then ["--config", inputs.config] else []) := by
  unfold createArgs
  rcases h3 : semverSatisfiesGe v ⟨0, 3, 0⟩ <;>
    simp only [if_true, if_false, Bool.false_eq_true, foldl_push_pairs] <;>
    rcases hk : inputs.buildkitdFlags != "" <;>
    rcases hu : inputs.use <;>
    rcases he : inputs.endpoint != "" <;>
    rcases hc : inputs.config != "" <;>
    simp_all

theorem mem_dockerInfoPhase {env : Env} {x : Effect}
    (h : x ∈ (dockerInfoPhase env).1) :
    x = Effect.exec "docker" ["version"] ∨ x = Effect.exec "docker" ["info"] := by
  unfold dockerInfoPhase at h
  split at h <;> simp_all

theorem mem_provPhase {inputs : Inputs} {env : Env} {x : Effect}
    (h : x ∈ (provPhase inputs env).1) :
    (env.versionIsUrl = true ∧ x = Effect.buildxBuild inputs.version env.dockerConfigHome) ∨
      (env.versionIsUrl = false ∧ (env.buildxAvailable = false ∨ inputs.version ≠ "") ∧
        x = Effect.buildxInstall (if inputs.version != "" then inputs.version else "latest")) := by
  unfold provPhase at h
  rcases hu : env.versionIsUrl <;> rcases ha : env.buildxAvailable <;>
    rcases hv : inputs.version != "" <;> simp_all

theorem mem_versionPhase {env : Env} {x : Effect}
    (h : x ∈ (versionPhase env).1) : x = Effect.getVersion := by
  simpa [versionPhase] using h

theorem mem_namePhase {inputs : Inputs} {x : Effect}
    (h : x ∈ (namePhase inputs).1) :
    x = Effect.setOutput "name" (builderNameOf inputs) ∨
      x = Effect.saveState "builderName" (builderNameOf inputs) := by
  simpa [namePhase] using h

theorem mem_createBootPhase {inputs : Inputs} {env : Env} {v : SemVer} {x : Effect}
    (h : x ∈ (createBootPhase inputs env v).1) :
    inputs.driver ≠ "docker" ∧
      (x = Effect.exec "docker" (createArgs inputs (builderNameOf inputs) v) ∨
        x = Effect.exec "docker" (bootstrapArgs (builderNameOf inputs) v)) := by
  unfold createBootPhase at h
  rcases hd : inputs.driver != "docker" <;> rw [hd] at h
  · simp_all
  · rcases hc : env.createRes with e | u <;> rw [hc] at h <;> simp_all

theorem mem_installPhase {inputs : Inputs} {env : Env} {x : Effect}
    (h : x ∈ (installPhase inputs env).1) :
    inputs.install = true ∧ x = Effect.exec "docker" ["buildx", "install"] := by
  unfold installPhase at h
  rcases hi : inputs.install <;> simp_all

theorem mem_inspectPhase {env : Env} {name : String} {x : Effect}
    (h : x ∈ (inspectPhase env name).1) : x = Effect.inspect name := by
  simpa [inspectPhase] using h

theorem mem_outputsPhase {b : Builder} {x : Effect}
    (h : x ∈ (outputsPhase b).1) :
    x = Effect.setOutput "driver" b.driver ∨
      x = Effect.setOutput "endpoint" b.node_endpoint ∨
      x = Effect.setOutput "status" b.node_status ∨
      x = Effect.setOutput "flags" b.node_flags ∨
      x = Effect.setOutput "platforms" b.node_platforms := by
  simpa [outputsPhase] using h

theorem mem_containerPhase {inputs : Inputs} {env : Env} {b : Builder} {x : Effect}
    (h : x ∈ (containerPhase inputs env b).1) :
    inputs.driver = "docker-container" ∧
      (x = Effect.saveState "containerName" ("buildx_buildkit_" ++ b.node_name) ∨
        x = Effect.getBuildKitVersion ("buildx_buildkit_" ++ b.node_name)) := by
  unfold containerPhase at h
  rcases hd : inputs.driver == "docker-container" <;> simp_all

theorem mem_debugPhase {env : Env} {b : Builder} {x : Effect}
    (h : x ∈ (debugPhase env b).1) :
    (env.isDebug || strIncludes b.node_flags "--debug") = true ∧
      x = Effect.saveState "isDebug" "true" := by
  unfold debugPhase at h
  rcases hc : env.isDebug || strIncludes b.node_flags "--debug" <;> simp_all

/-- Classification of every effect the setup try block can emit. -/
theorem mem_runSetup {inputs : Inputs} {env : Env} {x : Effect}
    (h : x ∈ (runSetup inputs env).1) :
    x = Effect.exec "docker" ["version"] ∨
    x = Effect.exec "docker" ["info"] ∨
    (env.versionIsUrl = true ∧ x = Effect.buildxBuild inputs.version env.dockerConfigHome) ∨
    (env.versionIsUrl = false ∧ (env.buildxAvailable = false ∨ inputs.version ≠ "") ∧
      x = Effect.buildxInstall (if inputs.version != "" then inputs.version else "latest")) ∨
    x = Effect.getVersion ∨
    x = Effect.setOutput "name" (builderNameOf inputs) ∨
    x = Effect.saveState "builderName" (builderNameOf inputs) ∨
    (∃ v, env.getVersionRes = Except.ok v ∧ inputs.driver ≠ "docker" ∧
      (x = Effect.exec "docker" (createArgs inputs (builderNameOf inputs) v) ∨
        x = Effect.exec "docker" (bootstrapArgs (builderNameOf inputs) v))) ∨
    (inputs.install = true ∧ x = Effect.exec "docker" ["buildx", "install"]) ∨
    x = Effect.inspect (builderNameOf inputs) ∨
    (∃ b, env.inspectRes = Except.ok b ∧
      (x = Effect.setOutput "driver" b.driver ∨
        x = Effect.setOutput "endpoint" b.node_endpoint ∨
        x = Effect.setOutput "status" b.node_status ∨
        x = Effect.setOutput "flags" b.node_flags ∨
        x = Effect.setOutput "platforms" b.node_platforms ∨
        (inputs.driver = "docker-container" ∧
          (x = Effect.saveState "containerName" ("buildx_buildkit_" ++ b.node_name) ∨
            x = Effect.getBuildKitVersion ("buildx_buildkit_" ++ b.node_name))) ∨
        ((env.isDebug || strIncludes b.node_flags "--debug") = true ∧
          x = Effect.saveState "isDebug" "true"))) := by
  unfold runSetup at h
  rcases mem_pSeq h with h | ⟨_, _, h⟩
  · rcases mem_dockerInfoPhase h with h | h <;> tauto
  rcases mem_pSeq h with h | ⟨_, _, h⟩
  · rcases mem_provPhase h with h | h <;> tauto
  rcases mem_pSeq h with h | ⟨v, hv, h⟩
  · have := mem_versionPhase h; tauto
  rcases mem_pSeq h with h | ⟨_, _, h⟩
  · rcases mem_namePhase h with h | h <;> tauto
  rcases mem_pSeq h with h | ⟨_, _, h⟩
  · obtain ⟨hd, h⟩ := mem_createBootPhase h
    exact Or.inr (Or.inr (Or.inr (Or.inr (Or.inr (Or.inr (Or.inr (Or.inl ⟨v, hv, hd, h⟩)))))))
  rcases mem_pSeq h with h | ⟨_, _, h⟩
  · have := mem_installPhase h; tauto
  rcases mem_pSeq h with h | ⟨b, hb, h⟩
  · have := mem_inspectPhase h; tauto
  rcases mem_pSeq h with h | ⟨_, _, h⟩
  · rcases mem_outputsPhase h with h | h | h | h | h <;>
      refine Or.inr (Or.inr (Or.inr (Or.inr (Or.inr (Or.inr (Or.inr (Or.inr
        (Or.inr (Or.inr ⟨b, hb, ?_⟩))))))))) <;> tauto
  rcases mem_pSeq h with h | ⟨_, _, h⟩
  · obtain ⟨hd, h⟩ := mem_containerPhase h
    exact Or.inr (Or.inr (Or.inr (Or.inr (Or.inr (Or.inr (Or.inr (Or.inr
      (Or.inr (Or.inr ⟨b, hb, Or.inr (Or.inr (Or.inr (Or.inr (Or.inr
        (Or.inl ⟨hd, h⟩)))))⟩)))))))))
  · obtain ⟨hc, h⟩ := mem_debugPhase h
    exact Or.inr (Or.inr (Or.inr (Or.inr (Or.inr (Or.inr (Or.inr (Or.inr
      (Or.inr (Or.inr ⟨b, hb, Or.inr (Or.inr (Or.inr (Or.inr (Or.inr
        (Or.inr ⟨hc, h⟩)))))⟩)))))))))

/-- Every effect of the full run is an effect of the try block or the
final setFailed report. -/
theorem mem_runResult {inputs : Inputs} {env : Env} {x : Effect}
    (h : x ∈ (runResult inputs env).1) :
    x ∈ (runSetup inputs env).1 ∨ ∃ e, x = Effect.setFailed e := by
  unfold runResult at h
  rcases hr : runSetup inputs env with ⟨t, r⟩
  rcases r with e | u <;> rw [hr] at h <;> simp_all
  tauto

theorem dockerInfoPhase_ok {env : Env} {u : Unit}
    (h : (dockerInfoPhase env).2 = Except.ok u) :
    (dockerInfoPhase env).1 =
      [Effect.exec "docker" ["version"], Effect.exec "docker" ["info"]] := by
  unfold dockerInfoPhase at h ⊢
  rcases hv : env.dockerVersionRes with e | w <;> simp_all

theorem createBootPhase_ok {inputs : Inputs} {env : Env} {v : SemVer} {u : Unit}
    (h : (createBootPhase inputs env v).2 = Except.ok u) :
    (createBootPhase inputs env v).1 =
      if inputs.driver != "docker" then
        [Effect.exec "docker" (createArgs inputs (builderNameOf inputs) v),
         Effect.exec "docker" (bootstrapArgs (builderNameOf inputs) v)]
      else [] := by
  unfold createBootPhase at h ⊢
  rcases hd : inputs.driver != "docker"
  · simp_all
  · rcases hc : env.createRes with e | w <;> simp_all

theorem installPhase_fst (inputs : Inputs) (env : Env) :
    (installPhase inputs env).1 =
      if inputs.install then [Effect.exec "docker" ["buildx", "install"]] else [] := by
  unfold installPhase
  rcases h : inputs.install <;> simp [h]

theorem containerPhase_fst (inputs : Inputs) (env : Env) (b : Builder) :
    (containerPhase inputs env b).1 =
      if inputs.driver == "docker-container" then
        [Effect.saveState "containerName" ("buildx_buildkit_" ++ b.node_name),
         Effect.getBuildKitVersion ("buildx_buildkit_" ++ b.node_name)]
      else [] := by
  unfold containerPhase
  rcases h : inputs.driver == "docker-container" <;> simp [h]

/-- A successful setup run resolves a version and a builder and its
trace is exactly the concatenation of the phase traces, the
conditional phases contributing according to their guards. -/
theorem runSetup_ok {inputs : Inputs} {env : Env}
    (h : (runSetup inputs env).2 = Except.ok ()) :
    ∃ v b, env.getVersionRes = Except.ok v ∧ env.inspectRes = Except.ok b ∧
      (runSetup inputs env).1 =
        [Effect.exec "docker" ["version"], Effect.exec "docker" ["info"]] ++
        (provPhase inputs env).1 ++
        [Effect.getVersion,
         Effect.setOutput "name" (builderNameOf inputs),
         Effect.saveState "builderName" (builderNameOf inputs)] ++
        (if inputs.driver != "docker" then
          [Effect.exec "docker" (createArgs inputs (builderNameOf inputs) v),
           Effect.exec "docker" (bootstrapArgs (builderNameOf inputs) v)]
        else []) ++
        (if inputs.install then [Effect.exec "docker" ["buildx", "install"]] else []) ++
        [Effect.inspect (builderNameOf inputs),
         Effect.setOutput "driver" b.driver,
         Effect.setOutput "endpoint" b.node_endpoint,
         Effect.setOutput "status" b.node_status,
         Effect.setOutput "flags" b.node_flags,
         Effect.setOutput "platforms" b.node_platforms] ++
        (if inputs.driver == "docker-container" then
          [Effect.saveState "containerName" ("buildx_buildkit_" ++ b.node_name),
           Effect.getBuildKitVersion ("buildx_buildkit_" ++ b.node_name)]
        else []) ++
        (if env.isDebug || strIncludes b.node_flags "--debug" then
          [Effect.saveState "isDebug" "true"]
        else []) := by
  unfold runSetup at h ⊢
  obtain ⟨u1, hA, h, e1⟩ := pSeq_ok_elim h
  obtain ⟨u2, hB, h, e2⟩ := pSeq_ok_elim h
  obtain ⟨v, hv, h, e3⟩ := pSeq_ok_elim h
  obtain ⟨u4, hD, h, e4⟩ := pSeq_ok_elim h
  obtain ⟨u5, hE, h, e5⟩ := pSeq_ok_elim h
  obtain ⟨u6, hF, h, e6⟩ := pSeq_ok_elim h
  obtain ⟨b, hb, h, e7⟩ := pSeq_ok_elim h
  obtain ⟨u8, hH, h, e8⟩ := pSeq_ok_elim h
  obtain ⟨u9, hI, h, e9⟩ := pSeq_ok_elim h
  refine ⟨v, b, by simpa [versionPhase] using hv, by simpa [inspectPhase] using hb, ?_⟩
  rw [e1, e2, e3, e4, e5, e6, e7, e8, e9, dockerInfoPhase_ok hA,
    createBootPhase_ok hE, installPhase_fst, containerPhase_fst]
  simp [versionPhase, namePhase, inspectPhase, outputsPhase, debugPhase]

/-- A trace whose final effect is not an output or state write. -/
def EndsNonWrite (p : List Effect) : Prop :=
  ∃ t f, p = t ++ [f] ∧ f.isWrite = false

theorem endsNonWrite_append {q : List Effect} (p : List Effect)
    (h : EndsNonWrite q) : EndsNonWrite (p ++ q) := by
  obtain ⟨t, f, rfl, hf⟩ := h
  exact ⟨p ++ t, f, by simp, hf⟩

theorem dockerInfoPhase_error {env : Env} {e : String}
    (_h : (dockerInfoPhase env).2 = Except.error e) :
    EndsNonWrite (dockerInfoPhase env).1 := by
  unfold dockerInfoPhase
  rcases hv : env.dockerVersionRes with e0 | w
  · exact ⟨[], Effect.exec "docker" ["version"], by simp, rfl⟩
  · exact ⟨[Effect.exec "docker" ["version"]], Effect.exec "docker" ["info"], by simp, rfl⟩

theorem provPhase_error {inputs : Inputs} {env : Env} {e : String}
    (h : (provPhase inputs env).2 = Except.error e) :
    EndsNonWrite (provPhase inputs env).1 := by
  unfold provPhase at h ⊢
  rcases hu : env.versionIsUrl
  · rcases hc : (!env.buildxAvailable || inputs.version != "") <;> simp_all
    exact ⟨[], _, rfl, rfl⟩
  · simp_all
    exact ⟨[], _, rfl, rfl⟩

theorem versionPhase_endsNonWrite (env : Env) : EndsNonWrite (versionPhase env).1 :=
  ⟨[], Effect.getVersion, rfl, rfl⟩

theorem inspectPhase_endsNonWrite (env : Env) (name : String) :
    EndsNonWrite (inspectPhase env name).1 :=
  ⟨[], Effect.inspect name, rfl, rfl⟩

theorem createBootPhase_error {inputs : Inputs} {env : Env} {v : SemVer} {e : String}
    (h : (createBootPhase inputs env v).2 = Except.error e) :
    EndsNonWrite (createBootPhase inputs env v).1 := by
  by_cases hd : (inputs.driver != "docker") = true
  · rcases hc : env.createRes with e0 | w
    · exact ⟨[], Effect.exec "docker" (createArgs inputs (builderNameOf inputs) v),
        by simp [createBootPhase, hd, hc], rfl⟩
    · exact ⟨[Effect.exec "docker" (createArgs inputs (builderNameOf inputs) v)],
        Effect.exec "docker" (bootstrapArgs (builderNameOf inputs) v),
        by simp [createBootPhase, hd, hc], rfl⟩
  · exact absurd h (by simp [createBootPhase, hd])

theorem installPhase_error {inputs : Inputs} {env : Env} {e : String}
    (h : (installPhase inputs env).2 = Except.error e) :
    EndsNonWrite (installPhase inputs env).1 := by
  unfold installPhase at h ⊢
  rcases hi : inputs.install <;> simp_all
  exact ⟨[], _, rfl, rfl⟩

theorem containerPhase_error {inputs : Inputs} {env : Env} {b : Builder} {e : String}
    (h : (containerPhase inputs env b).2 = Except.error e) :
    EndsNonWrite (containerPhase inputs env b).1 := by
  unfold containerPhase at h ⊢
  rcases hd : inputs.driver == "docker-container" <;> simp_all
  exact ⟨[Effect.saveState "containerName" ("buildx_buildkit_" ++ b.node_name)],
    Effect.getBuildKitVersion ("buildx_buildkit_" ++ b.node_name), by simp, rfl⟩

/-- A failing setup try block emits the failing command as its last
effect: nothing, in particular no output or state write, follows it. -/
theorem runSetup_error {inputs : Inputs} {env : Env} {e : String}
    (h : (runSetup inputs env).2 = Except.error e) :
    EndsNonWrite (runSetup inputs env).1 := by
  unfold runSetup at h ⊢
  rcases pSeq_error_elim h with ⟨hA, hEq⟩ | ⟨u1, hA, h, hEq⟩
  · rw [hEq]; exact dockerInfoPhase_error hA
  rw [hEq]; apply endsNonWrite_append
  rcases pSeq_error_elim h with ⟨hB, hEq⟩ | ⟨u2, hB, h, hEq⟩
  · rw [hEq]; exact provPhase_error hB
  rw [hEq]; apply endsNonWrite_append
  rcases pSeq_error_elim h with ⟨hC, hEq⟩ | ⟨v, hC, h, hEq⟩
  · rw [hEq]; exact versionPhase_endsNonWrite env
  rw [hEq]; apply endsNonWrite_append
  rcases pSeq_error_elim h with ⟨hD, hEq⟩ | ⟨u4, hD, h, hEq⟩
  · exact absurd hD (by simp [namePhase])
  rw [hEq]; apply endsNonWrite_append
  rcases pSeq_error_elim h with ⟨hE, hEq⟩ | ⟨u5, hE, h, hEq⟩
  · rw [hEq]; exact createBootPhase_error hE
  rw [hEq]; apply endsNonWrite_append
  rcases pSeq_error_elim h with ⟨hF, hEq⟩ | ⟨u6, hF, h, hEq⟩
  · rw [hEq]; exact installPhase_error hF
  rw [hEq]; apply endsNonWrite_append
  rcases pSeq_error_elim h with ⟨hG, hEq⟩ | ⟨b, hG, h, hEq⟩
  · rw [hEq]; exact inspectPhase_endsNonWrite env (builderNameOf inputs)
  rw [hEq]; apply endsNonWrite_append
  rcases pSeq_error_elim h with ⟨hH, hEq⟩ | ⟨u8, hH, h, hEq⟩
  · exact absurd hH (by simp [outputsPhase])
  rw [hEq]; apply endsNonWrite_append
  rcases pSeq_error_elim h with ⟨hI, hEq⟩ | ⟨u9, hI, h, hEq⟩
  · rw [hEq]; exact containerPhase_error hI
  · exact absurd h (by simp [debugPhase])

theorem mem_pSeq_left {α β : Type} {a : List Effect × Except String α}
    {f : α → List Effect × Except String β} {x : Effect}
    (h : x ∈ a.1) : x ∈ (pSeq a f).1 := by
  unfold pSeq
  rcases ha : a.2 with e | v <;> simp [h]

theorem mem_pSeq_right {α β : Type} {a : List Effect × Except String α}
    {f : α → List Effect × Except String β} {x : Effect} {v : α}
    (ha : a.2 = Except.ok v) (h : x ∈ (f v).1) : x ∈ (pSeq a f).1 := by
  unfold pSeq
  rw [ha]
  simp [h]

/-- A run that ended without a failure has a successful try block and
reports exactly its trace. -/
theorem runResult_none {inputs : Inputs} {env : Env}
    (h : (runResult inputs env).2 = none) :
    (runSetup inputs env).2 = Except.ok () ∧
      (runResult inputs env).1 = (runSetup inputs env).1 := by
  unfold runResult at h ⊢
  rcases hr : runSetup inputs env with ⟨t, r⟩
  rcases r with e | u <;> simp_all

/-- A run that ended with a failure message has a try block failing
with that message and appends the setFailed report to its trace. -/
theorem runResult_some {inputs : Inputs} {env : Env} {e : String}
    (h : (runResult inputs env).2 = some e) :
    (runSetup inputs env).2 = Except.error e ∧
      (runResult inputs env).1 = (runSetup inputs env).1 ++ [Effect.setFailed e] := by
  unfold runResult at h ⊢
  rcases hr : runSetup inputs env with ⟨t, r⟩
  rcases r with e0 | u <;> simp_all

theorem runSetup_subset_runResult {inputs : Inputs} {env : Env} {x : Effect}
    (h : x ∈ (runSetup inputs env).1) : x ∈ (runResult inputs env).1 := by
  unfold runResult
  rcases hr : runSetup inputs env with ⟨t, r⟩
  rw [hr] at h
  rcases r with e | u <;> simp_all

/-- The try block itself never reports a failure effect. -/
theorem setFailed_not_mem_runSetup {inputs : Inputs} {env : Env} {m : String}
    (h : Effect.setFailed m ∈ (runSetup inputs env).1) : False := by
  rcases mem_runSetup h with h | h | ⟨_, h⟩ | ⟨_, _, h⟩ | h | h | h |
    ⟨_, _, _, h | h⟩ | ⟨_, h⟩ | h |
    ⟨_, _, h | h | h | h | h | ⟨_, h | h⟩ | ⟨_, h⟩⟩ <;> simp_all

theorem stateSaves_append (key : String) (a b : List Effect) :
    stateSaves key (a ++ b) = stateSaves key a ++ stateSaves key b := by
  simp [stateSaves]

theorem stateSaves_provPhase (key : String) (inputs : Inputs) (env : Env) :
    stateSaves key (provPhase inputs env).1 = [] := by
  unfold provPhase
  rcases hu : env.versionIsUrl <;>
    rcases hc : (!env.buildxAvailable || inputs.version != "") <;>
    simp [stateSaves]

/-- The process state persisted by a successful run: the builder name,
the container name exactly for the docker-container driver, and the
debug flag exactly when runner debug mode is on or the inspected flags
contain the debug marker. -/
theorem stateOf_runResult {inputs : Inputs} {env : Env} {b : Builder}
    (hok : (runResult inputs env).2 = none) (hb : env.inspectRes = Except.ok b) :
    stateOf (runResult inputs env).1 =
      { builderName := builderNameOf inputs
        containerName :=
          if inputs.driver == "docker-container" then "buildx_buildkit_" ++ b.node_name
          else ""
        isDebug := env.isDebug || strIncludes b.node_flags "--debug" } := by
  obtain ⟨hsok, htr⟩ := runResult_none hok
  obtain ⟨v, b2, hv, hb2, htrace⟩ := runSetup_ok hsok
  rw [hb] at hb2
  injection hb2 with hbb
  subst hbb
  rw [htr, htrace]
  unfold stateOf lastState
  simp only [stateSaves_append, stateSaves_provPhase]
  rcases hcb : inputs.driver != "docker" <;>
    rcases hins : inputs.install <;>
    rcases hdc : inputs.driver == "docker-container" <;>
    rcases hdbg : env.isDebug || strIncludes b.node_flags "--debug" <;>
    simp_all [stateSaves]

/-- Concrete builder record used by sample runs. -/
def sampleBuilder : Builder :=
  { name := "builder-main"
    driver := "docker-container"
    node_name := "builder-main0"
    node_endpoint := "unix:///var/run/docker.sock"
    node_status := "running"
    node_flags := ""
    node_platforms := "linux/amd64,linux/arm64" }

/-- Concrete environment in which every external call succeeds. -/
def baseEnv : Env :=
  { dockerConfigHome := "/home/runner/.docker"
    versionIsUrl := false
    buildxAvailable := true
    dockerVersionRes := .ok ()
    dockerInfoRes := .ok ()
    buildRes := .ok ()
    installRes := .ok ()
    getVersionRes := .ok ⟨0, 4, 2⟩
    createRes := .ok ()
    bootRes := .ok ()
    installDefaultRes := .ok ()
    inspectRes := .ok sampleBuilder
    buildKitVersionRes := .ok "buildkitd github.com/moby/buildkit v0.8.2"
    isDebug := false }

/-- Concrete inputs for a docker-container run. -/
def sampleInputs : Inputs :=
  { version := ""
    driver := "docker-container"
    driverOpts := ["image=moby/buildkit:master", "network=host"]
    buildkitdFlags := "--allow-insecure-entitlement security.insecure"
    endpoint := ""
    config := ""
    use := true
    install := false
    builderName := "main" }

/-- Successful exec output. -/
def quietExec : ExecOutput := { stdout := "", stderr := "", exitCode := 0 }

/-- Cleanup environment in which both commands succeed quietly. -/
def cenv0 : CleanupEnv := { logsRes := quietExec, rmRes := quietExec }

theorem getLast_append_singleton {α : Type} (l : List α) (a : α) :
    (l ++ [a]).getLast? = some a :=
  List.getLast?_concat l

/-- Concrete inputs carrying both an endpoint and a config path. -/
def c1Inputs : Inputs :=
  { version := ""
    driver := "docker-container"
    driverOpts := []
    buildkitdFlags := ""
    endpoint := "tcp://192.168.1.5:2375"
    config := "/etc/buildkitd.toml"
    use := false
    install := false
    builderName := "cex" }

/-- C1 counterexample: with a non-empty endpoint AND a non-empty
config path, the creation argument list ends with the --config pair,
so the endpoint is neither the final token nor placed after the
--config pair; the claim fails on this input. -/
theorem c1_counterexample :
    createArgs c1Inputs "builder-cex" ⟨0, 4, 2⟩ =
      ["buildx", "create", "--name", "builder-cex", "--driver", "docker-container",
       "tcp://192.168.1.5:2375", "--config", "/etc/buildkitd.toml"] ∧
    ¬ (createArgs c1Inputs "builder-cex" ⟨0, 4, 2⟩).getLast? =
        some c1Inputs.endpoint := by
  constructor
  · rfl
  · decide

/-- C1 (amended): for a non-empty endpoint, the endpoint is appended
as a bare positional token after the name, driver, version-gated,
and use flags; it is the final token exactly when no config path is
given, and otherwise it immediately precedes the final --config
flag/value pair. -/
theorem c1_endpoint_after_flags (inputs : Inputs) (name : String) (v : SemVer)
    (he : inputs.endpoint ≠ "") :
    (inputs.config = "" →
      (createArgs inputs name v).getLast? = some inputs.endpoint) ∧
    (inputs.config ≠ "" → ∃ pre, createArgs inputs name v =
      pre ++ [inputs.endpoint, "--config", inputs.config]) := by
  rw [createArgs_eq]
  have he2 : (inputs.endpoint != "") = true := by simpa using he
  constructor
  · intro hc
    simp only [hc, he2, bne_self_eq_false, reduceIte, Bool.false_eq_true, if_false,
      List.append_nil]
    exact getLast_append_singleton _ _
  · intro hc
    have hc2 : (inputs.config != "") = true := by simpa using hc
    refine ⟨["buildx", "create", "--name", name, "--driver", inputs.driver] ++
      (if semverSatisfiesGe v ⟨0, 3, 0⟩ then
        optPairs "--driver-opt" inputs.driverOpts ++
          (if inputs.buildkitdFlags != "" then
            ["--buildkitd-flags", inputs.buildkitdFlags]
          else [])
      else []) ++
      (if inputs.use then ["--use"] else []), ?_⟩
    simp only [he2, hc2, reduceIte]
    simp [List.append_assoc]

/-- Concrete inputs with no config path. -/
def c1NoConfigInputs : Inputs :=
  { c1Inputs with endpoint := "tcp://10.0.0.1:2376", config := "" }

/-- C1 witness: with no config path the endpoint is the final token. -/
theorem c1_witness :
    (createArgs c1NoConfigInputs "builder-w1" ⟨0, 4, 2⟩).getLast? =
      some "tcp://10.0.0.1:2376" :=
  (c1_endpoint_after_flags c1NoConfigInputs "builder-w1" ⟨0, 4, 2⟩ (by decide)).1 rfl

/-- C3: for a non-docker driver, when the resolved version meets the
0.3.0 bound the creation arguments contain one driver-opt pair per
supplied option in order, then the single buildkitd-flags pair when
that input is non-empty; when the bound is not met, neither appears
even when supplied, and the argument list is still produced (their
omission causes no failure). -/
theorem c3_version_gated_args (inputs : Inputs) (name : String) (v : SemVer)
    (_hd : inputs.driver ≠ "docker") :
    (semverSatisfiesGe v ⟨0, 3, 0⟩ = true →
      createArgs inputs name v =
        ["buildx", "create", "--name", name, "--driver", inputs.driver] ++
          optPairs "--driver-opt" inputs.driverOpts ++
          (if inputs.buildkitdFlags != "" then
            ["--buildkitd-flags", inputs.buildkitdFlags]
          else []) ++
          (if inputs.use then ["--use"] else []) ++
          (if inputs.endpoint != "" then [inputs.endpoint] else []) ++
          (if inputs.config != "" then ["--config", inputs.config] else [])) ∧
    (semverSatisfiesGe v ⟨0, 3, 0⟩ = false →
      createArgs inputs name v =
        ["buildx", "create", "--name", name, "--driver", inputs.driver] ++
          (if inputs.use then ["--use"] else []) ++
          (if inputs.endpoint != "" then [inputs.endpoint] else []) ++
          (if inputs.config != "" then ["--config", inputs.config] else [])) := by
  constructor <;> intro h3 <;> rw [createArgs_eq] <;> simp [h3]

/-- Concrete inputs with two driver options and buildkitd flags. -/
def c3Inputs : Inputs :=
  { version := ""
    driver := "kubernetes"
    driverOpts := ["a=1", "b=2"]
    buildkitdFlags := "--debug"
    endpoint := ""
    config := ""
    use := true
    install := false
    builderName := "w" }

/-- C3 witness: at version 0.3.0 exactly, both driver options appear
as flag pairs in input order followed by the buildkitd-flags pair. -/
theorem c3_witness :
    createArgs c3Inputs "builder-w" ⟨0, 3, 0⟩ =
      ["buildx", "create", "--name", "builder-w", "--driver", "kubernetes",
       "--driver-opt", "a=1", "--driver-opt", "b=2",
       "--buildkitd-flags", "--debug", "--use"] := by
  rw [(c3_version_gated_args c3Inputs "builder-w" ⟨0, 3, 0⟩ (by decide)).1 rfl]
  rfl

/-- C4: the boot argument list carries the explicit builder name flag
exactly when the resolved version meets the 0.4.0 bound; at 0.4.0 the
name is passed, at 0.2.0 it is not. -/
theorem c4_boot_builder_flag (name : String) (v : SemVer) :
    ("--builder" ∈ bootstrapArgs name v ↔ semverSatisfiesGe v ⟨0, 4, 0⟩ = true) ∧
    bootstrapArgs name ⟨0, 4, 0⟩ =
      ["buildx", "inspect", "--bootstrap", "--builder", name] ∧
    bootstrapArgs name ⟨0, 2, 0⟩ = ["buildx", "inspect", "--bootstrap"] := by
  refine ⟨?_, rfl, rfl⟩
  unfold bootstrapArgs
  rcases h : semverSatisfiesGe v ⟨0, 4, 0⟩ <;> simp [h]

/-- Concrete inputs for the docker driver. -/
def dockerInputs : Inputs :=
  { version := ""
    driver := "docker"
    driverOpts := []
    buildkitdFlags := ""
    endpoint := ""
    config := ""
    use := false
    install := false
    builderName := "x" }

/-- Builder record reported for the implicit default docker builder. -/
def dockerBuilder : Builder :=
  { name := "default"
    driver := "docker"
    node_name := "default"
    node_endpoint := "unix:///var/run/docker.sock"
    node_status := "running"
    node_flags := ""
    node_platforms := "linux/amd64" }

/-- Environment for a successful docker-driver run. -/
def dockerEnv : Env := { baseEnv with inspectRes := .ok dockerBuilder }

/-- C2 counterexample: after a successful docker-driver setup the
persisted builder name is the non-empty string "default", so the
cleanup phase DOES issue a builder-removal command for it, refuting
the claim that no removal command is ever issued for this driver. -/
theorem c2_counterexample :
    cleanupTrace (stateOf (runResult dockerInputs dockerEnv).1) cenv0 =
      [Effect.execIgnore "docker" ["buildx", "rm", "default"]] := by
  rfl

/-- C2 (amended): with the docker driver the reported and persisted
builder name is always "default", setup issues no creation and no
boot command (its only possible docker invocations are the version,
info and install-as-default commands), but cleanup, fed the persisted
state of a successful run, DOES issue the removal command for the
name "default" since that persisted name is non-empty. -/
theorem c2_docker_run (inputs : Inputs) (env : Env) (cenv : CleanupEnv)
    (hd : inputs.driver = "docker") :
    (∀ w, Effect.setOutput "name" w ∈ (runResult inputs env).1 → w = "default") ∧
    (∀ w, Effect.saveState "builderName" w ∈ (runResult inputs env).1 → w = "default") ∧
    (∀ args, Effect.exec "docker" args ∈ (runResult inputs env).1 →
      args = ["version"] ∨ args = ["info"] ∨ args = ["buildx", "install"]) ∧
    ((runResult inputs env).2 = none →
      Effect.setOutput "name" "default" ∈ (runResult inputs env).1 ∧
      Effect.execIgnore "docker" ["buildx", "rm", "default"] ∈
        cleanupTrace (stateOf (runResult inputs env).1) cenv) := by
  have hname : builderNameOf inputs = "default" := by simp [builderNameOf, hd]
  refine ⟨?_, ?_, ?_, ?_⟩
  · intro w hw
    rcases mem_runResult hw with h | ⟨e, he⟩
    · rcases mem_runSetup h with h | h | ⟨_, h⟩ | ⟨_, _, h⟩ | h | h | h |
        ⟨_, _, hdr, h | h⟩ | ⟨_, h⟩ | h |
        ⟨b, _, h | h | h | h | h | ⟨hdc, h | h⟩ | ⟨_, h⟩⟩ <;> simp_all
    · simp at he
  · intro w hw
    rcases mem_runResult hw with h | ⟨e, he⟩
    · rcases mem_runSetup h with h | h | ⟨_, h⟩ | ⟨_, _, h⟩ | h | h | h |
        ⟨_, _, hdr, h | h⟩ | ⟨_, h⟩ | h |
        ⟨b, _, h | h | h | h | h | ⟨hdc, h | h⟩ | ⟨_, h⟩⟩ <;> simp_all
    · simp at he
  · intro args hw
    rcases mem_runResult hw with h | ⟨e, he⟩
    · rcases mem_runSetup h with h | h | ⟨_, h⟩ | ⟨_, _, h⟩ | h | h | h |
        ⟨_, _, hdr, h | h⟩ | ⟨_, h⟩ | h |
        ⟨b, _, h | h | h | h | h | ⟨hdc, h | h⟩ | ⟨_, h⟩⟩ <;> simp_all
    · simp at he
  · intro hok
    obtain ⟨hsok, htr⟩ := runResult_none hok
    obtain ⟨v, b, hv, hb, htrace⟩ := runSetup_ok hsok
    constructor
    · rw [htr, htrace, hname]
      simp
    · rw [stateOf_runResult hok hb]
      have hdc : (inputs.driver == "docker-container") = false := by simp [hd]
      simp [cleanupTrace, hname, hdc]
      decide

/-- C2 witness: the successful docker-driver run reports the name
"default" and its cleanup issues the removal command for it. -/
theorem c2_witness :
    Effect.setOutput "name" "default" ∈ (runResult dockerInputs dockerEnv).1 ∧
    Effect.execIgnore "docker" ["buildx", "rm", "default"] ∈
      cleanupTrace (stateOf (runResult dockerInputs dockerEnv).1) cenv0 :=
  (c2_docker_run dockerInputs dockerEnv cenv0 rfl).2.2.2 rfl

/-- Cleanup state after a setup run that persisted a builder name. -/
def st5 : ProcState := { builderName := "builder-b", containerName := "", isDebug := false }

/-- Cleanup environment in which the removal command exits non-zero
while printing nothing on stderr. -/
def cenvFail : CleanupEnv :=
  { logsRes := quietExec, rmRes := { stdout := "", stderr := "", exitCode := 1 } }

/-- C5 counterexample: the removal command exits with code 1 but has
empty stderr, and cleanup logs NO warning at all (the code warns only
when stderr is also non-empty), refuting the claim that every
non-zero exit is downgraded to a logged warning; cleanup still
returns success. -/
theorem c5_counterexample :
    cleanupTrace st5 cenvFail =
      [Effect.execIgnore "docker" ["buildx", "rm", "builder-b"]] ∧
    cenvFail.rmRes.exitCode = 1 ∧
    (cleanupResult st5 cenvFail).2 = none := by
  refine ⟨by decide, rfl, rfl⟩

/-- C5 (amended): cleanup always returns success and never reports a
failure; with no persisted builder name and no triggered log
retrieval it issues zero commands; when a builder name is persisted
the removal command is always issued (cleanup proceeds regardless of
the other command); and a warning is logged only for a command whose
stderr is non-empty AND whose exit code is non-zero — a failing
command with empty stderr logs nothing, it is merely ignored. -/
theorem c5_cleanup_nonfatal (st : ProcState) (cenv : CleanupEnv) :
    (cleanupResult st cenv).2 = none ∧
    (st.builderName.length = 0 →
      (st.isDebug = false ∨ st.containerName.length = 0) →
      cleanupTrace st cenv = []) ∧
    (0 < st.builderName.length →
      Effect.execIgnore "docker" ["buildx", "rm", st.builderName] ∈
        cleanupTrace st cenv) ∧
    (∀ m, Effect.warning m ∈ cleanupTrace st cenv →
      (m = cenv.logsRes.stderr.trim ∧ 0 < cenv.logsRes.stderr.length ∧
        cenv.logsRes.exitCode ≠ 0) ∨
      (m = cenv.rmRes.stderr.trim ∧ 0 < cenv.rmRes.stderr.length ∧
        cenv.rmRes.exitCode ≠ 0)) ∧
    (∀ m, Effect.setFailed m ∉ cleanupTrace st cenv) := by
  refine ⟨rfl, ?_, ?_, ?_, ?_⟩
  · intro h1 h2
    rcases h2 with h2 | h2 <;> simp [cleanupTrace, h1, h2]
  · intro h
    simp [cleanupTrace, h]
  · intro m hm
    unfold cleanupTrace at hm
    rcases hd : (st.isDebug && decide (0 < st.containerName.length)) <;>
      rcases hl : (decide (0 < cenv.logsRes.stderr.length) &&
        decide (cenv.logsRes.exitCode != 0)) <;>
      rcases hbn : (decide (0 < st.builderName.length) : Bool) <;>
      rcases hr : (decide (0 < cenv.rmRes.stderr.length) &&
        decide (cenv.rmRes.exitCode != 0)) <;>
      simp_all
    all_goals tauto
  · intro m hm
    unfold cleanupTrace at hm
    rcases hd : (st.isDebug && decide (0 < st.containerName.length)) <;>
      rcases hl : (decide (0 < cenv.logsRes.stderr.length) &&
        decide (cenv.logsRes.exitCode != 0)) <;>
      rcases hbn : (decide (0 < st.builderName.length) : Bool) <;>
      rcases hr : (decide (0 < cenv.rmRes.stderr.length) &&
        decide (cenv.rmRes.exitCode != 0)) <;>
      simp_all

/-- C5 witness: a persisted name yields the removal command and a
successful cleanup outcome. -/
theorem c5_witness :
    Effect.execIgnore "docker" ["buildx", "rm", "builder-b"] ∈
      cleanupTrace st5 cenvFail ∧
    (cleanupResult st5 cenvFail).2 = none :=
  ⟨(c5_cleanup_nonfatal st5 cenvFail).2.2.1 (by decide),
   (c5_cleanup_nonfatal st5 cenvFail).1⟩

/-- Classification of cleanup effects together with the guard under
which each is emitted. -/
theorem mem_cleanupTrace {st : ProcState} {cenv : CleanupEnv} {x : Effect}
    (h : x ∈ cleanupTrace st cenv) :
    ((st.isDebug && decide (0 < st.containerName.length)) = true ∧
      (x = Effect.execIgnore "docker" ["logs", st.containerName] ∨
       x = Effect.warning cenv.logsRes.stderr.trim)) ∨
    ((decide (0 < st.builderName.length) : Bool) = true ∧
      (x = Effect.execIgnore "docker" ["buildx", "rm", st.builderName] ∨
       x = Effect.warning cenv.rmRes.stderr.trim)) := by
  unfold cleanupTrace at h
  rcases h1 : (st.isDebug && decide (0 < st.containerName.length)) <;>
    rcases h2 : (decide (0 < cenv.logsRes.stderr.length) &&
      decide (cenv.logsRes.exitCode != 0)) <;>
    rcases h3 : (decide (0 < st.builderName.length) : Bool) <;>
    rcases h4 : (decide (0 < cenv.rmRes.stderr.length) &&
      decide (cenv.rmRes.exitCode != 0)) <;>
    simp_all <;> tauto

/-- Builder whose inspected node flags contain the debug marker. -/
def debugBuilder : Builder :=
  { sampleBuilder with node_flags := "--allow-insecure-entitlement security.insecure --debug" }

/-- Environment whose inspect step reports the debug-flagged builder
while runner debug mode stays off. -/
def debugEnv : Env := { baseEnv with inspectRes := .ok debugBuilder }

/-- C6: a successful run persists the debug flag exactly when the
runner debug mode is active or the inspected node flags contain the
marker string, so a builder with the marker sets it even with runner
debug off; and cleanup never runs the inspect step, it only reads the
persisted state. -/
theorem c6_debug_flag (inputs : Inputs) (env : Env) (b : Builder) (cenv : CleanupEnv)
    (hb : env.inspectRes = Except.ok b)
    (hok : (runResult inputs env).2 = none) :
    (Effect.saveState "isDebug" "true" ∈ (runResult inputs env).1 ↔
      (env.isDebug || strIncludes b.node_flags "--debug") = true) ∧
    (∀ n, Effect.inspect n ∉ cleanupTrace (stateOf (runResult inputs env).1) cenv) := by
  obtain ⟨hsok, htr⟩ := runResult_none hok
  obtain ⟨v, b2, hv, hb2, htrace⟩ := runSetup_ok hsok
  rw [hb] at hb2
  injection hb2 with hbb
  subst hbb
  constructor
  · constructor
    · intro h
      rcases mem_runResult h with h | ⟨e, he⟩
      · rcases mem_runSetup h with h | h | ⟨_, h⟩ | ⟨_, _, h⟩ | h | h | h |
          ⟨_, _, _, h | h⟩ | ⟨_, h⟩ | h |
          ⟨b3, hb3, h | h | h | h | h | ⟨_, h | h⟩ | ⟨hdbg, h⟩⟩ <;> simp_all
      · simp at he
    · intro hc
      rw [htr, htrace]
      simp [hc]
  · intro n hn
    rcases mem_cleanupTrace hn with ⟨_, h | h⟩ | ⟨_, h | h⟩ <;> simp_all

/-- C6 witness: a builder whose flags carry the marker sets the
persisted debug flag although runner debug mode is off. -/
theorem c6_witness :
    Effect.saveState "isDebug" "true" ∈ (runResult sampleInputs debugEnv).1 ∧
    debugEnv.isDebug = false :=
  ⟨((c6_debug_flag sampleInputs debugEnv debugBuilder cenv0 rfl rfl).1).mpr (by decide),
   rfl⟩

/-- Environment with no usable buildx binary on the path. -/
def instEnv : Env := { baseEnv with buildxAvailable := false }

/-- C7: provisioning decision order: a URL version builds from
source (and never downloads); otherwise a missing binary or an
explicit version triggers a download of that version, defaulting to
latest (and never a source build); otherwise no provisioning action
of either kind is taken. -/
theorem c7_provisioning (inputs : Inputs) (env : Env)
    (h1 : env.dockerVersionRes = Except.ok ())
    (h2 : env.dockerInfoRes = Except.ok ()) :
    (env.versionIsUrl = true →
      Effect.buildxBuild inputs.version env.dockerConfigHome ∈ (runResult inputs env).1 ∧
      ∀ ver, Effect.buildxInstall ver ∉ (runResult inputs env).1) ∧
    (env.versionIsUrl = false → (env.buildxAvailable = false ∨ inputs.version ≠ "") →
      Effect.buildxInstall (if inputs.version != "" then inputs.version else "latest") ∈
        (runResult inputs env).1 ∧
      ∀ r c, Effect.buildxBuild r c ∉ (runResult inputs env).1) ∧
    (env.versionIsUrl = false → env.buildxAvailable = true → inputs.version = "" →
      (∀ r c, Effect.buildxBuild r c ∉ (runResult inputs env).1) ∧
      (∀ ver, Effect.buildxInstall ver ∉ (runResult inputs env).1)) := by
  have hdok : (dockerInfoPhase env).2 = Except.ok () := by
    simp [dockerInfoPhase, h1, h2]
  have hmem : ∀ {x : Effect}, x ∈ (provPhase inputs env).1 → x ∈ (runSetup inputs env).1 := by
    intro x hx
    unfold runSetup
    exact mem_pSeq_right hdok (mem_pSeq_left hx)
  refine ⟨?_, ?_, ?_⟩
  · intro hu
    constructor
    · exact runSetup_subset_runResult (hmem (by simp [provPhase, hu]))
    · intro ver hm
      rcases mem_runResult hm with h | ⟨e, he⟩
      · rcases mem_runSetup h with h | h | ⟨_, h⟩ | ⟨hu2, _, h⟩ | h | h | h |
          ⟨_, _, _, h | h⟩ | ⟨_, h⟩ | h |
          ⟨_, _, h | h | h | h | h | ⟨_, h | h⟩ | ⟨_, h⟩⟩ <;> simp_all
      · simp at he
  · intro hu hav
    have hcond : (!env.buildxAvailable || inputs.version != "") = true := by
      rcases hav with h | h <;> simp [h]
    constructor
    · exact runSetup_subset_runResult (hmem (by simp [provPhase, hu, hcond]))
    · intro r c hm
      rcases mem_runResult hm with h | ⟨e, he⟩
      · rcases mem_runSetup h with h | h | ⟨hu2, h⟩ | ⟨_, _, h⟩ | h | h | h |
          ⟨_, _, _, h | h⟩ | ⟨_, h⟩ | h |
          ⟨_, _, h | h | h | h | h | ⟨_, h | h⟩ | ⟨_, h⟩⟩ <;> simp_all
      · simp at he
  · intro hu hav hv
    constructor
    · intro r c hm
      rcases mem_runResult hm with h | ⟨e, he⟩
      · rcases mem_runSetup h with h | h | ⟨hu2, h⟩ | ⟨_, _, h⟩ | h | h | h |
          ⟨_, _, _, h | h⟩ | ⟨_, h⟩ | h |
          ⟨_, _, h | h | h | h | h | ⟨_, h | h⟩ | ⟨_, h⟩⟩ <;> simp_all
      · simp at he
    · intro ver hm
      rcases mem_runResult hm with h | ⟨e, he⟩
      · rcases mem_runSetup h with h | h | ⟨hu2, h⟩ | ⟨_, hav2, h⟩ | h | h | h |
          ⟨_, _, _, h | h⟩ | ⟨_, h⟩ | h |
          ⟨_, _, h | h | h | h | h | ⟨_, h | h⟩ | ⟨_, h⟩⟩ <;> simp_all
      · simp at he

/-- C7 witness: with no binary available and no explicit version, the
latest release is downloaded. -/
theorem c7_witness :
    Effect.buildxInstall "latest" ∈ (runResult sampleInputs instEnv).1 :=
  ((c7_provisioning sampleInputs instEnv rfl rfl).2.1 rfl (Or.inl rfl)).1

/-- Environment in which the docker info command fails. -/
def failEnv : Env := { baseEnv with dockerInfoRes := .error "docker info failed" }

/-- C8: a run that fails ends with the single setFailed report
carrying exactly the error message, immediately preceded by the
failing command, which is not an output or state write: nothing is
produced after the failure point, and no other failure report
exists. -/
theorem c8_fail_fast (inputs : Inputs) (env : Env) (e : String)
    (h : (runResult inputs env).2 = some e) :
    (runResult inputs env).1.getLast? = some (Effect.setFailed e) ∧
    (∀ f, (runResult inputs env).1.dropLast.getLast? = some f →
      Effect.isWrite f = false) ∧
    (∀ m, Effect.setFailed m ∈ (runResult inputs env).1.dropLast → False) := by
  obtain ⟨herr, heq⟩ := runResult_some h
  obtain ⟨t, f, hts, hf⟩ := runSetup_error herr
  have hA : (runResult inputs env).1 = (t ++ [f]) ++ [Effect.setFailed e] := by
    rw [heq, hts]
  have hdrop : (runResult inputs env).1.dropLast = t ++ [f] := by
    rw [hA]
    simp
  refine ⟨?_, ?_, ?_⟩
  · rw [hA]
    exact getLast_append_singleton _ _
  · intro f2 hf2
    rw [hdrop, getLast_append_singleton] at hf2
    injection hf2 with hff
    subst hff
    exact hf
  · intro m hm
    rw [hdrop, ← hts] at hm
    exact setFailed_not_mem_runSetup hm

/-- C8 witness: the run failing at docker info ends with the report
of exactly that message, preceded by the failing non-write command. -/
theorem c8_witness :
    (runResult sampleInputs failEnv).1.getLast? =
      some (Effect.setFailed "docker info failed") :=
  (c8_fail_fast sampleInputs failEnv "docker info failed" rfl).1

/-- Every structured output a run writes is either the builder name
or one of the five builder fields written after inspection. -/
theorem setOutput_mem_runResult {inputs : Inputs} {env : Env} {key w : String}
    (h : Effect.setOutput key w ∈ (runResult inputs env).1) :
    (key = "name" ∧ w = builderNameOf inputs) ∨
    ∃ b, env.inspectRes = Except.ok b ∧
      ((key = "driver" ∧ w = b.driver) ∨
       (key = "endpoint" ∧ w = b.node_endpoint) ∨
       (key = "status" ∧ w = b.node_status) ∨
       (key = "flags" ∧ w = b.node_flags) ∨
       (key = "platforms" ∧ w = b.node_platforms)) := by
  rcases mem_runResult h with h | ⟨e, he⟩
  · rcases mem_runSetup h with h | h | ⟨_, h⟩ | ⟨_, _, h⟩ | h | h | h |
      ⟨_, _, _, h | h⟩ | ⟨_, h⟩ | h |
      ⟨b3, hb3, h | h | h | h | h | ⟨_, h | h⟩ | ⟨_, h⟩⟩ <;>
      first
        | (injection h with hk hv
           subst hk
           subst hv
           first
             | exact Or.inl ⟨rfl, rfl⟩
             | exact Or.inr ⟨b3, hb3, by simp⟩)
        | injection h
  · simp at he

/-- C9: in a successful run the structured outputs under the driver,
endpoint, status, flags and platforms keys hold exactly the
corresponding fields of the inspected builder record. -/
theorem c9_outputs_roundtrip (inputs : Inputs) (env : Env) (b : Builder)
    (hb : env.inspectRes = Except.ok b)
    (hok : (runResult inputs env).2 = none) :
    (∀ w, Effect.setOutput "driver" w ∈ (runResult inputs env).1 ↔ w = b.driver) ∧
    (∀ w, Effect.setOutput "endpoint" w ∈ (runResult inputs env).1 ↔ w = b.node_endpoint) ∧
    (∀ w, Effect.setOutput "status" w ∈ (runResult inputs env).1 ↔ w = b.node_status) ∧
    (∀ w, Effect.setOutput "flags" w ∈ (runResult inputs env).1 ↔ w = b.node_flags) ∧
    (∀ w, Effect.setOutput "platforms" w ∈ (runResult inputs env).1 ↔ w = b.node_platforms) := by
  obtain ⟨hsok, htr⟩ := runResult_none hok
  obtain ⟨v, b2, hv, hb2, htrace⟩ := runSetup_ok hsok
  rw [hb] at hb2
  injection hb2 with hbb
  subst hbb
  refine ⟨?_, ?_, ?_, ?_, ?_⟩ <;> intro w <;> constructor <;> intro hw
  all_goals try
    (subst hw
     rw [htr, htrace]
     simp)
  all_goals
    (rcases setOutput_mem_runResult hw with ⟨hk, _⟩ | ⟨b3, hb3, hcase⟩
     · simp at hk
     · rw [hb] at hb3
       injection hb3 with hbb2
       subst hbb2
       rcases hcase with ⟨hk, hv2⟩ | ⟨hk, hv2⟩ | ⟨hk, hv2⟩ | ⟨hk, hv2⟩ | ⟨hk, hv2⟩ <;>
         simp at hk <;> exact hv2)

/-- C9 witness: the platforms output of a successful run equals the
inspected node platforms. -/
theorem c9_witness :
    Effect.setOutput "platforms" "linux/amd64,linux/arm64" ∈
      (runResult sampleInputs baseEnv).1 :=
  ((c9_outputs_roundtrip sampleInputs baseEnv sampleBuilder rfl rfl).2.2.2.2
    "linux/amd64,linux/arm64").mpr rfl

/-- C10: a container name is persisted exactly for the
docker-container driver, as the prefix buildx_buildkit_ followed by
the inspected node name; cleanup issues a container-logs command only
under a set debug flag with a non-empty container name; and for any
other driver cleanup never fetches container logs. -/
theorem c10_container_logs (inputs : Inputs) (env : Env) (b : Builder) (cenv : CleanupEnv)
    (hb : env.inspectRes = Except.ok b)
    (hok : (runResult inputs env).2 = none) :
    (∀ w, Effect.saveState "containerName" w ∈ (runResult inputs env).1 ↔
      (inputs.driver = "docker-container" ∧ w = "buildx_buildkit_" ++ b.node_name)) ∧
    (∀ st args, Effect.execIgnore "docker" ("logs" :: args) ∈ cleanupTrace st cenv →
      st.isDebug = true ∧ 0 < st.containerName.length) ∧
    (inputs.driver ≠ "docker-container" →
      ∀ args, Effect.execIgnore "docker" ("logs" :: args) ∉
        cleanupTrace (stateOf (runResult inputs env).1) cenv) := by
  obtain ⟨hsok, htr⟩ := runResult_none hok
  obtain ⟨v, b2, hv, hb2, htrace⟩ := runSetup_ok hsok
  rw [hb] at hb2
  injection hb2 with hbb
  subst hbb
  refine ⟨?_, ?_, ?_⟩
  · intro w
    constructor
    · intro hw
      rcases mem_runResult hw with h | ⟨e, he⟩
      · rcases mem_runSetup h with h | h | ⟨_, h⟩ | ⟨_, _, h⟩ | h | h | h |
          ⟨_, _, _, h | h⟩ | ⟨_, h⟩ | h |
          ⟨b3, hb3, h | h | h | h | h | ⟨hdc, h | h⟩ | ⟨_, h⟩⟩ <;> simp_all
      · simp at he
    · rintro ⟨hdc, rfl⟩
      rw [htr, htrace]
      simp [hdc]
  · intro st args hm
    rcases mem_cleanupTrace hm with ⟨hc, h | h⟩ | ⟨_, h | h⟩ <;> simp_all
  · intro hd args hm
    rw [stateOf_runResult hok hb] at hm
    have hdc : (inputs.driver == "docker-container") = false := by simp [hd]
    rcases mem_cleanupTrace hm with ⟨hc, h | h⟩ | ⟨_, h | h⟩ <;> simp_all

/-- C10 witness: a docker-container run persists the prefixed node
name as the container name. -/
theorem c10_witness :
    Effect.saveState "containerName" "buildx_buildkit_builder-main0" ∈
      (runResult sampleInputs baseEnv).1 :=
  ((c10_container_logs sampleInputs baseEnv sampleBuilder cenv0 rfl rfl).1
    "buildx_buildkit_builder-main0").mpr ⟨rfl, rfl⟩

end SetupBuildx
